import Mathlib

/- Formal model of the Market Pulse service (`src/main.py`): a FastAPI
endpoint `get_market_pulse` that aggregates daily price history, news
sentiment and a text-generation verdict into one cached JSON result.

Modelling conventions:
* Python floats are modelled as exact rationals.  `round(x, 2)` is modelled
  as rounding `100 * x` to the nearest integer, half rounded up.  Python and
  numpy round halves to even; every concrete input used below is tie-free,
  so the two notions agree on them.
* The Alpha Vantage time series is modelled, after the
  `DataFrame / astype(float) / sort_index(ascending=False)` steps, as the
  list of `(date, close)` pairs sorted most-recent-first (the PriceSeries
  invariant: dates strictly decreasing, closes positive).
* External effects (the two HTTP fetches, the VADER analyzer, the Gemini
  call and `json.loads`) are inputs of the model: each outcome the Python
  code distinguishes is a constructor of an outcome type or a function
  parameter.
-/

/-- Model of Python `round(x, 2)` (see the tie caveat in the header):
round `100 * x` to the nearest integer, halves up, and divide back. -/
def round2 (x : ℚ) : ℚ := ((⌊100 * x + 1/2⌋ : ℤ) : ℚ) / 100

/-- `df['4. close'].pct_change()` on the most-recent-first frame, after
`df.dropna()` removes the leading `NaN` row (main.py lines 58-59): entry `j`
is `(close[j+1] - close[j]) / close[j] * 100`, i.e. the percentage change
from the positionally previous (more recent) row to the current one. -/
def pctChangeDropped : List ℚ → List ℚ
  | a :: b :: rest => ((b - a) / a * 100) :: pctChangeDropped (b :: rest)
  | _ => []

/-- `returns = df['returns'].head(5).round(2).tolist()` (main.py line 60). -/
def stockReturns (closes : List ℚ) : List ℚ :=
  ((pctChangeDropped closes).take 5).map round2

/-- `simple_momentum_score = round(sum(returns), 2) if returns else 0.0`
(main.py line 63). -/
def simpleMomentumScore (closes : List ℚ) : ℚ :=
  let r := stockReturns closes
  if r.isEmpty then 0 else round2 r.sum

/-- Advanced momentum (main.py lines 66-78), computed on the frame AFTER
`dropna` dropped the most recent row: `last_close` is `closes[1]`; with 20
or more remaining rows `rolling(window=20).mean().iloc[0]` is `NaN` (fewer
than 20 rows precede row 0 of the window), so `pd.notna` fails and the
score falls back to `0.0`; with fewer rows the SMA is the mean of all
remaining closes. -/
def advancedMomentumScore (closes : List ℚ) : ℚ :=
  match closes with
  | _ :: c1 :: rest =>
    let t : List ℚ := c1 :: rest
    if 20 ≤ t.length then 0
    else
      let sma := t.sum / (t.length : ℚ)
      if 0 < sma then round2 ((c1 / sma - 1) * 100) else 0
  | _ => 0

structure MomentumFeatures where
  returns : List ℚ
  simple_score : ℚ
  advanced_score : ℚ
deriving DecidableEq

/-- Momentum block of `get_market_pulse` (main.py lines 57-78): with fewer
than two closes the frame left by `dropna` is empty and
`df['4. close'].iloc[0]` raises `IndexError` (modelled as `none`). -/
def momentumOf (closes : List ℚ) : Option MomentumFeatures :=
  match closes with
  | _ :: _ :: _ =>
    some ⟨stockReturns closes, simpleMomentumScore closes, advancedMomentumScore closes⟩
  | _ => none

/-- Modelled from the spec: the claimed per-day return formula
`(close[i] - close[i+1]) / close[i+1] * 100`, `close[0]` most recent. -/
def specPctChange : List ℚ → List ℚ
  | a :: b :: rest => ((a - b) / b * 100) :: specPctChange (b :: rest)
  | _ => []

/-- Modelled from the spec: the first `min(N-1, 5)` claimed returns, each
rounded to 2 decimals. -/
def specReturns (closes : List ℚ) : List ℚ :=
  ((specPctChange closes).take 5).map round2

/-- Modelled from the spec: `((lastClose / sma) - 1) * 100` with `sma` the
arithmetic mean of the most recent `min(20, N)` closes, `0.0` when that
mean is non-positive or undefined. -/
def specAdvancedScore (closes : List ℚ) : ℚ :=
  match closes with
  | c0 :: _ =>
    let w := closes.take (min 20 closes.length)
    let sma := w.sum / (w.length : ℚ)
    if 0 < sma then round2 ((c0 / sma - 1) * 100) else 0
  | [] => 0

/-- C1: the momentum computation does produce `min(N-1, 5)` entries, but
`pct_change` on the most-recent-first frame computes each entry as
`(close[i+1] - close[i]) / close[i] * 100`, not the claimed
`(close[i] - close[i+1]) / close[i+1] * 100`: at closes `[150, 148]` the
code yields `[-1.33]` while the claimed formula yields `[1.35]`. -/
theorem c1_returns_formula_bug :
    stockReturns [150, 148] = [-133/100] ∧
    specReturns [150, 148] = [27/20] ∧
    stockReturns [150, 148] ≠ specReturns [150, 148] := by
  refine ⟨by norm_num [stockReturns, pctChangeDropped, round2], ?_, ?_⟩
  · norm_num [specReturns, specPctChange, round2]
  · norm_num [stockReturns, specReturns, pctChangeDropped, specPctChange, round2]

/-- C2: the advanced momentum score is computed after `dropna` removed the
most recent row, so `last_close` is the second-most-recent close and the
SMA omits the most recent close; moreover with 20 or more remaining rows
the rolling mean at row 0 is `NaN` and the score is always `0.0`.  At
closes `[200, 100]` the code yields `0.0` while the claimed formula yields
`33.33`; at a 21-close series `110 :: 100^20` the code yields `0.0` while
the claimed formula yields `9.45`. -/
theorem c2_advanced_score_bug :
    advancedMomentumScore [200, 100] = 0 ∧
    specAdvancedScore [200, 100] = 3333/100 ∧
    advancedMomentumScore (110 :: List.replicate 20 100) = 0 ∧
    specAdvancedScore (110 :: List.replicate 20 100) = 189/20 ∧
    advancedMomentumScore [200, 100] ≠ specAdvancedScore [200, 100] := by
  refine ⟨?_, ?_, ?_, ?_, ?_⟩ <;>
    norm_num [advancedMomentumScore, specAdvancedScore, round2,
      List.replicate, min_def]

/-- The character `{` (written by code point to keep it out of literals). -/
def lbrace : Char := Char.ofNat 123

/-- The character `}` (written by code point to keep it out of literals). -/
def rbrace : Char := Char.ofNat 125

/-- ASCII model of Python `str.upper()` (tickers and pulse strings in this
service are ASCII). -/
def pyUpperChar (c : Char) : Char :=
  if 97 ≤ c.toNat ∧ c.toNat ≤ 122 then Char.ofNat (c.toNat - 32) else c

/-- ASCII model of Python `str.lower()`. -/
def pyLowerChar (c : Char) : Char :=
  if 65 ≤ c.toNat ∧ c.toNat ≤ 90 then Char.ofNat (c.toNat + 32) else c

def pyUpper (s : String) : String := ⟨s.data.map pyUpperChar⟩

def pyLower (s : String) : String := ⟨s.data.map pyLowerChar⟩

/-- Python whitespace as stripped by `str.strip()`. -/
def isPySpace (c : Char) : Bool :=
  c == ' ' || c == '\t' || c == '\n' || c == '\r' ||
    c == Char.ofNat 11 || c == Char.ofNat 12

/-- Model of Python `str.strip()`. -/
def pyStrip (s : String) : String :=
  ⟨((s.data.dropWhile isPySpace).reverse.dropWhile isPySpace).reverse⟩

/-- The span matched by `re.search(r'\x7b.*\x7d', text, re.DOTALL)`
(main.py line 152): with a greedy `.*` under DOTALL this is the substring
from the first `{` to the last `}`, provided a `}` occurs after the first
`{`; otherwise there is no match. -/
def spanOf (s : String) : Option String :=
  let after := s.data.dropWhile (fun c => c != lbrace)
  match after with
  | [] => none
  | _ =>
    let rev := after.reverse.dropWhile (fun c => c != rbrace)
    match rev with
    | [] => none
    | _ => some ⟨rev.reverse⟩

/-- A value in the parsed JSON object: the code only ever inspects string
values (it calls `.lower()` on the pulse value); any non-string value is
`jother m`, where `m` models the message of the `AttributeError` that
`.lower()` raises on it. -/
inductive JVal where
  | jstr (s : String)
  | jother (lowerErrMsg : String)
deriving DecidableEq

/-- The Python dict produced by a successful `json.loads` of the span. -/
abbrev PyDict := List (String × JVal)

/-- Python `dict.get(key, default)`. -/
def dictGet (d : PyDict) (k : String) (dflt : JVal) : JVal :=
  match d.find? (fun e => e.1 == k) with
  | some e => e.2
  | none => dflt

/-- Outcome of `model.generate_content_async` followed by `.text`: either
some exception (network, blocked response, ...) with its message, or the
generated text. -/
inductive GenOutcome where
  | genErr (msg : String)
  | genText (t : String)

/-- The pulse-interpretation block (main.py lines 144-162).  `parseJson`
models `json.loads` on the extracted span: `.ok d` a parsed object, or
`.error m` a raised `json.JSONDecodeError` with message `m`.  The whole
block sits in one `try`, so a parse failure (or the `AttributeError` from
`.lower()` on a non-string pulse) is caught by the same
`except Exception` clause as a generation failure; only the no-match
branch produces the "Could not parse" message.  The function is total:
the step never raises.  Returns `(pulse, explanation)`. -/
def interpretLLM (parseJson : String → Except String PyDict) (g : GenOutcome) :
    String × JVal :=
  match g with
  | .genErr m => ("neutral", .jstr ("Could not get explanation from LLM: " ++ m))
  | .genText t =>
    match spanOf (pyStrip t) with
    | none => ("neutral", .jstr "Could not parse LLM response as JSON.")
    | some sp =>
      match parseJson sp with
      | .error m => ("neutral", .jstr ("Could not get explanation from LLM: " ++ m))
      | .ok d =>
        match dictGet d "pulse" (.jstr "neutral") with
        | .jstr p => (pyLower p, dictGet d "explanation" (.jstr "No explanation provided."))
        | .jother em => ("neutral", .jstr ("Could not get explanation from LLM: " ++ em))

/-- A raw article from the news provider's `articles` list: either an
object (the code reads `title`, `description`, `url` with `.get`) or a
malformed entry (not a dict), on which `art.get` raises. -/
inductive Article where
  | good (title description url : String)
  | malformed

/-- A scored headline as appended at main.py lines 97-102. -/
structure Headline where
  title : String
  description : String
  url : String
  sentiment : ℚ
deriving DecidableEq

/-- The scoring loop (main.py lines 93-102).  `senti` models
`SentimentIntensityAnalyzer().polarity_scores(...)['compound']`, applied to
`f"{title} {description}"`.  Returns the accumulated `headlines` list and
whether the loop completed: a malformed article raises mid-loop, keeping
the entries appended so far (the exception is handled further out). -/
def collectHeadlines (senti : String → ℚ) : List Article → List Headline × Bool
  | [] => ([], true)
  | .malformed :: _ => ([], false)
  | .good t d u :: rest =>
    let p := collectHeadlines senti rest
    (⟨t, d, u, senti (t ++ " " ++ d)⟩ :: p.1, p.2)

/-- Insert into a list sorted by descending `abs` sentiment, after every
element of greater-or-equal key: the stable insertion step. -/
def insertBySent (x : Headline) : List Headline → List Headline
  | [] => [x]
  | y :: ys =>
    if |y.sentiment| ≤ |x.sentiment| then x :: y :: ys else y :: insertBySent x ys

/-- Stable sort by descending `abs` sentiment, modelling
`headlines.sort(key=lambda x: abs(x['sentiment']), reverse=True)`
(main.py line 105); Python's sort is stable, and a stable sort's output is
determined by the key order, so insertion sort is an exact model. -/
def sortBySent : List Headline → List Headline
  | [] => []
  | x :: xs => insertBySent x (sortBySent xs)

/-- The ranking step (main.py lines 105-106): stable sort by descending
absolute sentiment, then `headlines[:5]`. -/
def rankNews (hs : List Headline) : List Headline := (sortBySent hs).take 5

/-- Outcome of the news fetch: a network error (`httpx.RequestError`), any
other failure before the loop (`raise_for_status`, `.json()`, a
non-iterable `articles` field), or a well-formed response with its
`articles` list (`news_data.get("articles", [])`). -/
inductive NewsOutcome where
  | netErr (msg : String)
  | otherErr (msg : String)
  | okArticles (arts : List Article)

/-- The whole news block (main.py lines 82-112): the `headlines` variable
after the try/except.  Fetch failures leave it `[]`; a malformed article
aborts the loop after some appends and skips the sort/truncate, leaving
the partial, unsorted, untruncated list; on full success the ranked top 5
remain. -/
def newsHeadlines (senti : String → ℚ) : NewsOutcome → List Headline
  | .netErr _ => []
  | .otherErr _ => []
  | .okArticles arts =>
    let p := collectHeadlines senti arts
    if p.2 then rankNews p.1 else p.1

/-- The exceptions the stock-fetch `try` block can raise.  `httpExc` is
`fastapi.HTTPException` — which subclasses `Exception`, so it is caught by
the final `except Exception` clause like any other. -/
inductive StockExc where
  | httpExc (code : ℕ) (detail : String)
  | reqExc (msg : String)
  | otherExc (msg : String)

/-- Outcome of the stock fetch attempt, before exception handling:
`reqErr` a network-level `httpx.RequestError` from `client.get`;
`statusErr` an `httpx.HTTPStatusError` from `raise_for_status` (NOT a
`RequestError`); `jsonErr` a failure of `stock_resp.json()`; `okData none`
a parsed body missing the "Time Series (Daily)" key; `okData (some s)` a
body with the daily series `s` as date-sorted `(date, close)` pairs. -/
inductive StockOutcome where
  | reqErr (msg : String)
  | statusErr (msg : String)
  | jsonErr (msg : String)
  | okData (series : Option (List (String × ℚ)))

/-- The body of the stock-fetch `try` (main.py lines 39-45), including the
`raise HTTPException(status_code=404, ...)` on a missing series key. -/
def stockTryBody : StockOutcome → Except StockExc (List (String × ℚ))
  | .reqErr m => .error (.reqExc m)
  | .statusErr m => .error (.otherExc m)
  | .jsonErr m => .error (.otherExc m)
  | .okData none =>
    .error (.httpExc 404 "Ticker not found or invalid API key for stock data.")
  | .okData (some s) => .ok s

/-- Python `str(e)` for the exceptions above; for a `fastapi.HTTPException`
this is `"<code>: <detail>"`. -/
def excMessage : StockExc → String
  | .httpExc c d => toString c ++ ": " ++ d
  | .reqExc m => m
  | .otherExc m => m

/-- The stock fetch with its `except` clauses (main.py lines 38-49):
`except httpx.RequestError` maps to 504, and every other exception —
including the `HTTPException(404)` raised inside the `try` — is caught by
`except Exception` and re-raised as a 500.  The result is either the
daily series or an HTTP error `(status, detail)`. -/
def fetchStock (o : StockOutcome) : Except (ℕ × String) (List (String × ℚ)) :=
  match stockTryBody o with
  | .ok s => .ok s
  | .error e =>
    match e with
    | .reqExc m => .error (504, "Error fetching stock data: " ++ m)
    | e' => .error (500, "An unexpected error occurred with stock data: " ++ excMessage e')

/-- The JSON artifact assembled at main.py lines 164-175.  `llm_explanation`
is a `JVal` because a parsed non-string explanation value is stored as-is. -/
structure MarketPulseResult where
  ticker : String
  as_of : String
  momentum : MomentumFeatures
  news : List Headline
  pulse : String
  llm_explanation : JVal
deriving DecidableEq

/-- One request's external world: the outcome of each upstream call, the
deterministic VADER scorer, `json.loads`, and the server's current date
(`datetime.date.today().isoformat()`). -/
structure Env where
  stock : StockOutcome
  news : NewsOutcome
  senti : String → ℚ
  gen : GenOutcome
  parseJson : String → Except String PyDict
  today : String

def withNews (e : Env) (n : NewsOutcome) : Env :=
  ⟨e.stock, n, e.senti, e.gen, e.parseJson, e.today⟩

/-- The cache-miss path of `get_market_pulse` (main.py lines 37-175), from
the stock fetch to the assembled result.  A fetch failure aborts with its
HTTP error; a series with fewer than two usable closes crashes the
momentum block with an unhandled `IndexError`, which FastAPI surfaces as a
bare 500 Internal Server Error; otherwise the news and generation steps
can only degrade the payload, never fail the request. -/
def pipeline (ticker : String) (env : Env) : Except (ℕ × String) MarketPulseResult :=
  match fetchStock env.stock with
  | .error e => .error e
  | .ok series =>
    let closes := series.map (fun p => p.2)
    match momentumOf closes with
    | none => .error (500, "Internal Server Error")
    | some feats =>
      let headlines := newsHeadlines env.senti env.news
      let v := interpretLLM env.parseJson env.gen
      .ok ⟨ticker, env.today, feats, headlines, v.1, v.2⟩

/-- One entry of the `cachetools.TTLCache`: inserted under the uppercased
ticker with absolute expiry `insertion time + 600`. -/
structure CacheEntry where
  key : String
  expires : ℚ
  val : MarketPulseResult

abbrev CacheState := List CacheEntry

/-- TTLCache lookup (`ticker in cache` / `cache[ticker]`): an entry whose
expiry has been reached behaves as missing. -/
def cacheGet (c : CacheState) (now : ℚ) (k : String) : Option MarketPulseResult :=
  match c.find? (fun e => e.key == k) with
  | some e => if now < e.expires then some e.val else none
  | none => none

/-- TTLCache insertion (`cache[ticker] = result`): the new entry replaces
any existing entry for the same key and expires 600 seconds from now.
(The capacity-100 eviction of other keys is not modelled; no claim below
involves more than one key.) -/
def cachePut (c : CacheState) (now : ℚ) (k : String) (v : MarketPulseResult) : CacheState :=
  ⟨k, now + 600, v⟩ :: c.filter (fun e => e.key != k)

/-- The endpoint (main.py lines 31-179): uppercase the ticker, consult the
cache, and on a miss run the pipeline, caching a successful result.  The
third component records whether any upstream call was issued (false
exactly on a cache hit, which short-circuits before every fetch). -/
def get_market_pulse (c : CacheState) (now : ℚ) (ticker : String) (env : Env) :
    Except (ℕ × String) MarketPulseResult × CacheState × Bool :=
  let t := pyUpper ticker
  match cacheGet c now t with
  | some r => (.ok r, c, false)
  | none =>
    match pipeline t env with
    | .ok r => (.ok r, cachePut c now t r, true)
    | .error e => (.error e, c, true)

/-- Status component of a pipeline outcome: `some (code, detail)` on an
HTTP error, `none` on success. -/
def statusOf : Except (ℕ × String) MarketPulseResult → Option (ℕ × String)
  | .error e => some e
  | .ok _ => none

/-- C3: a successfully received price response lacking the
"Time Series (Daily)" key does NOT yield 404: the
`raise HTTPException(status_code=404, ...)` sits inside the `try`, and
`fastapi.HTTPException` subclasses `Exception`, so the blanket
`except Exception` intercepts it and re-raises a 500 whose detail embeds
the stringified 404.  Network failures do map to 504 and
`raise_for_status` failures to 500 as claimed. -/
theorem c3_missing_key_gives_500 :
    fetchStock (.okData none) =
      .error (500, "An unexpected error occurred with stock data: 404: Ticker not found or invalid API key for stock data.") ∧
    (∀ d, fetchStock (.okData none) ≠ .error (404, d)) ∧
    (∀ m, fetchStock (.reqErr m) = .error (504, "Error fetching stock data: " ++ m)) ∧
    (∀ m, fetchStock (.statusErr m) =
      .error (500, "An unexpected error occurred with stock data: " ++ m)) := by
  refine ⟨rfl, fun d h => ?_, fun m => rfl, fun m => rfl⟩
  simp [fetchStock, stockTryBody] at h

/-- A concrete environment whose price series has a single usable close. -/
def envShort : Env :=
  ⟨.okData (some [("2024-01-02", 150)]), .netErr "down", fun _ => 0,
   .genErr "skipped", fun _ => .error "no json", "2024-01-03"⟩

/-- C9: the momentum block is not total.  With a single close (or none),
`pct_change` followed by `dropna` leaves an empty frame and
`df['4. close'].iloc[0]` raises `IndexError`, so the request fails with an
unhandled 500 instead of degrading to empty returns and a 0.0 score; only
series of length at least two complete. -/
theorem c9_length_one_series_crashes :
    momentumOf [150] = none ∧
    momentumOf [] = none ∧
    (momentumOf [150, 148]).isSome = true ∧
    pipeline "AAPL" envShort = .error (500, "Internal Server Error") :=
  ⟨rfl, rfl, rfl, rfl⟩

/-- A model of `json.loads` raising `JSONDecodeError` on every span (as it
does on the span of the text used below, which is not valid JSON). -/
def parseFailNoJson : String → Except String PyDict :=
  fun _ => .error "Expecting property name enclosed in double quotes: line 1 column 2 (char 1)"

/-- C4 counterexample: the generated text `{oops}` contains a `{...}` span,
and the span fails to parse as JSON — yet the explanation is the
"Could not get explanation from LLM" message, not the claimed
"Could not parse LLM response as JSON.", because `json.loads` raises
inside the same `try` as the generation call and is caught by its
`except Exception` clause. -/
theorem c4_span_parse_failure_counterexample :
    interpretLLM parseFailNoJson (.genText "\x7boops\x7d") =
      ("neutral", .jstr ("Could not get explanation from LLM: Expecting property name enclosed in double quotes: line 1 column 2 (char 1)")) ∧
    (interpretLLM parseFailNoJson (.genText "\x7boops\x7d")).2 ≠
      .jstr "Could not parse LLM response as JSON." := by
  refine ⟨rfl, ?_⟩
  intro h
  rw [show (interpretLLM parseFailNoJson (.genText "\x7boops\x7d")).2 =
      .jstr ("Could not get explanation from LLM: Expecting property name enclosed in double quotes: line 1 column 2 (char 1)") from rfl] at h
  simp at h

/-- C4 (amended): the interpretation step never raises; a generation
failure OR a parse failure of the found span (or a non-string pulse value)
yields the "Could not get explanation from LLM: cause" explanation, while
only a text with no `{...}` span yields "Could not parse LLM response as
JSON."; pulse is "neutral" in all these cases. -/
theorem c4_interpret_messages (parseJson : String → Except String PyDict) :
    (∀ g, ∃ pv, interpretLLM parseJson g = pv) ∧
    (∀ m, interpretLLM parseJson (.genErr m) =
      ("neutral", .jstr ("Could not get explanation from LLM: " ++ m))) ∧
    (∀ t, spanOf (pyStrip t) = none →
      interpretLLM parseJson (.genText t) =
        ("neutral", .jstr "Could not parse LLM response as JSON.")) ∧
    (∀ t sp m, spanOf (pyStrip t) = some sp → parseJson sp = .error m →
      interpretLLM parseJson (.genText t) =
        ("neutral", .jstr ("Could not get explanation from LLM: " ++ m))) := by
  refine ⟨fun g => ⟨_, rfl⟩, fun m => rfl, fun t h => ?_, fun t sp m h1 h2 => ?_⟩
  · simp only [interpretLLM, h]
  · simp only [interpretLLM, h1, h2]

/-- Witness for the amended C4: the no-span and failed-parse branches at
concrete generated texts. -/
theorem c4_interpret_messages_witness :
    interpretLLM parseFailNoJson (.genText "no json here") =
      ("neutral", .jstr "Could not parse LLM response as JSON.") ∧
    interpretLLM parseFailNoJson (.genText "note \x7boops\x7d end") =
      ("neutral", .jstr ("Could not get explanation from LLM: Expecting property name enclosed in double quotes: line 1 column 2 (char 1)")) :=
  ⟨(c4_interpret_messages parseFailNoJson).2.2.1 "no json here" rfl,
   (c4_interpret_messages parseFailNoJson).2.2.2 "note \x7boops\x7d end" "\x7boops\x7d"
     "Expecting property name enclosed in double quotes: line 1 column 2 (char 1)" rfl rfl⟩

/-- Descending order by absolute sentiment: `a` may precede `b`. -/
def sentGE (a b : Headline) : Prop := |b.sentiment| ≤ |a.sentiment|

/-- Membership predicate for one absolute-sentiment key value. -/
def sentKeyEq (c : ℚ) (h : Headline) : Bool := decide (|h.sentiment| = c)

lemma length_insertBySent (x : Headline) (l : List Headline) :
    (insertBySent x l).length = l.length + 1 := by
  induction l with
  | nil => rfl
  | cons y ys ih =>
    by_cases hc : |y.sentiment| ≤ |x.sentiment|
    · simp [insertBySent, hc]
    · simp [insertBySent, hc, ih]

lemma length_sortBySent (l : List Headline) : (sortBySent l).length = l.length := by
  induction l with
  | nil => rfl
  | cons x xs ih => simp [sortBySent, length_insertBySent, ih]

lemma mem_insertBySent {a x : Headline} {l : List Headline} :
    a ∈ insertBySent x l ↔ a = x ∨ a ∈ l := by
  induction l with
  | nil => simp [insertBySent]
  | cons y ys ih =>
    by_cases hc : |y.sentiment| ≤ |x.sentiment|
    · simp [insertBySent, hc]
    · simp [insertBySent, hc, ih]
      tauto

lemma pairwise_insertBySent {x : Headline} {l : List Headline}
    (h : l.Pairwise sentGE) : (insertBySent x l).Pairwise sentGE := by
  induction l with
  | nil => simp [insertBySent, sentGE]
  | cons y ys ih =>
    rw [List.pairwise_cons] at h
    obtain ⟨hy, hys⟩ := h
    by_cases hc : |y.sentiment| ≤ |x.sentiment|
    · simp only [insertBySent, if_pos hc]
      rw [List.pairwise_cons]
      refine ⟨fun z hz => ?_, List.pairwise_cons.mpr ⟨hy, hys⟩⟩
      rcases List.mem_cons.mp hz with rfl | hz'
      · exact hc
      · exact le_trans (hy z hz') hc
    · simp only [insertBySent, if_neg hc]
      rw [List.pairwise_cons]
      refine ⟨fun z hz => ?_, ih hys⟩
      rcases mem_insertBySent.mp hz with rfl | hz'
      · exact le_of_not_le hc
      · exact hy z hz'

lemma pairwise_sortBySent (l : List Headline) : (sortBySent l).Pairwise sentGE := by
  induction l with
  | nil => simp [sortBySent]
  | cons x xs ih => exact pairwise_insertBySent ih

lemma filter_insertBySent (c : ℚ) (x : Headline) (l : List Headline) :
    (insertBySent x l).filter (sentKeyEq c) = (x :: l).filter (sentKeyEq c) := by
  induction l with
  | nil => rfl
  | cons y ys ih =>
    by_cases hc : |y.sentiment| ≤ |x.sentiment|
    · simp only [insertBySent, if_pos hc]
    · simp only [insertBySent, if_neg hc]
      cases hfx : sentKeyEq c x with
      | false =>
        simp [List.filter_cons, hfx, ih]
      | true =>
        have hfy : sentKeyEq c y = false := by
          simp only [sentKeyEq, decide_eq_true_eq] at hfx
          simp only [sentKeyEq, decide_eq_false_iff_not]
          intro hy
          exact hc (le_of_eq (hy.trans hfx.symm))
        simp [List.filter_cons, hfx, hfy, ih]

lemma filter_sortBySent (c : ℚ) (l : List Headline) :
    (sortBySent l).filter (sentKeyEq c) = l.filter (sentKeyEq c) := by
  induction l with
  | nil => rfl
  | cons x xs ih =>
    rw [sortBySent, filter_insertBySent, List.filter_cons, List.filter_cons, ih]

/-- C5: the ranking step returns at most 5 items and no more than the
input; absolute sentiment is non-increasing along the output; stability:
for every key value, the output's items with that absolute sentiment are a
sublist (hence in original relative order) of the input's items with that
value; an empty input maps to an empty output. -/
theorem c5_rank_news_spec (l : List Headline) :
    (rankNews l).length ≤ 5 ∧
    (rankNews l).length ≤ l.length ∧
    (rankNews l).Pairwise sentGE ∧
    (∀ c : ℚ, ((rankNews l).filter (sentKeyEq c)).Sublist (l.filter (sentKeyEq c))) ∧
    rankNews ([] : List Headline) = [] := by
  refine ⟨?_, ?_, ?_, fun c => ?_, rfl⟩
  · rw [rankNews, List.length_take]
    exact min_le_left _ _
  · rw [rankNews, List.length_take, length_sortBySent]
    exact min_le_right _ _
  · exact List.Pairwise.sublist (List.take_sublist 5 (sortBySent l)) (pairwise_sortBySent l)
  · have h2 := (List.take_sublist 5 (sortBySent l)).filter (sentKeyEq c)
    rw [filter_sortBySent] at h2
    exact h2

/-- A deterministic stand-in for the VADER compound score (its exact
lexicon values are irrelevant to the claims below). -/
def sentiZero : String → ℚ := fun _ => 0

/-- An `articles` payload whose third entry is not an object, so
`art.get("title", "")` raises mid-loop. -/
def artsPartial : List Article :=
  [.good "t1" "d1" "u1", .good "t2" "d2" "u2", .malformed]

/-- C6 counterexample: a malformed third article aborts the scoring loop
AFTER two headlines were appended; the exception handler keeps the partial
`headlines` list, so the request continues with a NON-empty (and unsorted,
untruncated) news list — not the claimed empty one. -/
theorem c6_partial_news_counterexample :
    newsHeadlines sentiZero (.okArticles artsPartial) =
      [⟨"t1", "d1", "u1", 0⟩, ⟨"t2", "d2", "u2", 0⟩] ∧
    newsHeadlines sentiZero (.okArticles artsPartial) ≠ [] := by
  have h1 : newsHeadlines sentiZero (.okArticles artsPartial) =
      [⟨"t1", "d1", "u1", 0⟩, ⟨"t2", "d2", "u2", 0⟩] := rfl
  exact ⟨h1, by rw [h1]; exact List.cons_ne_nil _ _⟩

/-- C6 (amended): every news failure is absorbed — the pipeline's
success/error status is entirely independent of the news outcome — and a
fetch-level failure leaves the news list empty, while a malformed article
mid-loop leaves exactly the headlines accumulated before the failure. -/
theorem c6_news_failure_absorbed (tk : String) (env : Env) (n n' : NewsOutcome)
    (m : String) :
    statusOf (pipeline tk (withNews env n)) = statusOf (pipeline tk (withNews env n')) ∧
    (∀ r, pipeline tk (withNews env (.netErr m)) = .ok r → r.news = []) ∧
    (∀ r, pipeline tk (withNews env (.otherErr m)) = .ok r → r.news = []) ∧
    (∀ arts r, pipeline tk (withNews env (.okArticles arts)) = .ok r →
      (collectHeadlines env.senti arts).2 = false →
      r.news = (collectHeadlines env.senti arts).1) := by
  cases hfs : fetchStock env.stock with
  | error e =>
    refine ⟨by simp [pipeline, withNews, hfs], fun r h => ?_, fun r h => ?_,
      fun arts r h _ => ?_⟩ <;> simp [pipeline, withNews, hfs] at h
  | ok series =>
    cases hm : momentumOf (series.map (fun p => p.2)) with
    | none =>
      refine ⟨by simp [pipeline, withNews, hfs, hm], fun r h => ?_, fun r h => ?_,
        fun arts r h _ => ?_⟩ <;> simp [pipeline, withNews, hfs, hm] at h
    | some feats =>
      refine ⟨by simp [pipeline, withNews, hfs, hm, statusOf], fun r h => ?_,
        fun r h => ?_, fun arts r h hflag => ?_⟩ <;>
        simp only [pipeline, withNews, hfs, hm] at h
      · obtain rfl := (Except.ok.inj h).symm
        rfl
      · obtain rfl := (Except.ok.inj h).symm
        rfl
      · obtain rfl := (Except.ok.inj h).symm
        simp [newsHeadlines, hflag]

/-- A baseline environment: two-day price series, no news, failed
generation call. -/
def envBase : Env :=
  ⟨.okData (some [("2024-01-02", 150), ("2024-01-01", 148)]), .okArticles [],
   sentiZero, .genErr "skipped", fun _ => .error "no json", "2024-01-03"⟩

/-- The result the pipeline assembles from `envBase` when the news fetch
fails at network level. -/
def resNetErr : MarketPulseResult :=
  ⟨"A", "2024-01-03", ⟨[-133/100], -133/100, 0⟩, [], "neutral",
   .jstr "Could not get explanation from LLM: skipped"⟩

lemma momentum_envBase :
    momentumOf [150, 148] = some ⟨[-133/100], -133/100, 0⟩ := by
  have h1 : stockReturns [150, 148] = [-133/100] := by
    norm_num [stockReturns, pctChangeDropped, round2]
  have h0 : momentumOf [150, 148] =
      some (MomentumFeatures.mk (stockReturns [150, 148])
        (simpleMomentumScore [150, 148]) (advancedMomentumScore [150, 148])) := rfl
  rw [h0]
  simp only [Option.some.injEq, MomentumFeatures.mk.injEq]
  refine ⟨h1, ?_, ?_⟩
  · rw [simpleMomentumScore]
    norm_num [h1, List.isEmpty, round2]
  · norm_num [advancedMomentumScore, round2]

lemma pipeline_envBase_netErr :
    pipeline "A" (withNews envBase (.netErr "x")) = .ok resNetErr := by
  simp only [pipeline, withNews, envBase, fetchStock, stockTryBody, List.map,
    momentum_envBase]
  rfl

lemma pipeline_envBase_otherErr :
    pipeline "A" (withNews envBase (.otherErr "x")) = .ok resNetErr := by
  simp only [pipeline, withNews, envBase, fetchStock, stockTryBody, List.map,
    momentum_envBase]
  rfl

/-- The result assembled from `envBase` when the articles list is
`artsPartial`: the partial, unranked two headlines survive. -/
def resPartial : MarketPulseResult :=
  ⟨"A", "2024-01-03", ⟨[-133/100], -133/100, 0⟩,
   [⟨"t1", "d1", "u1", 0⟩, ⟨"t2", "d2", "u2", 0⟩], "neutral",
   .jstr "Could not get explanation from LLM: skipped"⟩

lemma pipeline_envBase_partial :
    pipeline "A" (withNews envBase (.okArticles artsPartial)) = .ok resPartial := by
  simp only [pipeline, withNews, envBase, fetchStock, stockTryBody, List.map,
    momentum_envBase]
  rfl

/-- Witness for the amended C6, discharging each hypothesis at the
concrete environment `envBase`. -/
theorem c6_news_failure_absorbed_witness :
    statusOf (pipeline "A" (withNews envBase (.netErr "x"))) =
      statusOf (pipeline "A" (withNews envBase (.okArticles []))) ∧
    resNetErr.news = [] ∧
    resPartial.news = (collectHeadlines envBase.senti artsPartial).1 :=
  ⟨(c6_news_failure_absorbed "A" envBase (.netErr "x") (.okArticles []) "x").1,
   (c6_news_failure_absorbed "A" envBase (.netErr "x") (.okArticles []) "x").2.1
     resNetErr pipeline_envBase_netErr,
   (c6_news_failure_absorbed "A" envBase (.netErr "x") (.okArticles []) "x").2.2.2
     artsPartial resPartial pipeline_envBase_partial rfl⟩

/-- A model of `json.loads` on the span used in the C7 counterexample:
`b"pulse": "Banana", "explanation": "because"` inside braces is a valid
JSON object, so `json.loads` returns the corresponding dict. -/
def parsePulseBanana : String → Except String PyDict :=
  fun _ => .ok [("pulse", .jstr "Banana"), ("explanation", .jstr "because")]

/-- An environment whose generation call answers with a well-formed JSON
object whose pulse value is not one of the three expected words. -/
def envBanana : Env :=
  ⟨.okData (some [("2024-01-02", 150), ("2024-01-01", 148)]), .netErr "down",
   sentiZero, .genText "\x7b\"pulse\": \"Banana\", \"explanation\": \"because\"\x7d",
   parsePulseBanana, "2024-01-03"⟩

/-- Pulse component of an endpoint outcome. -/
def pulseOfOutcome : Except (ℕ × String) MarketPulseResult → Option String
  | .ok r => some r.pulse
  | .error _ => none

/-- C7 counterexample: the code lowercases whatever string the model put
under "pulse" and never validates it, so the returned (and cached) result
can carry a pulse outside `bullish / bearish / neutral`. -/
theorem c7_pulse_value_counterexample :
    pulseOfOutcome (get_market_pulse [] 0 "aapl" envBanana).1 = some "banana" ∧
    "banana" ≠ "bullish" ∧ "banana" ≠ "bearish" ∧ "banana" ≠ "neutral" := by
  have hint : interpretLLM parsePulseBanana
      (.genText "\x7b\"pulse\": \"Banana\", \"explanation\": \"because\"\x7d") =
      ("banana", .jstr "because") := rfl
  have hpipe : pipeline "AAPL" envBanana =
      .ok ⟨"AAPL", "2024-01-03", ⟨[-133/100], -133/100, 0⟩, [], "banana", .jstr "because"⟩ := by
    simp only [pipeline, envBanana, fetchStock, stockTryBody, List.map, momentum_envBase]
    rfl
  constructor
  · show pulseOfOutcome (get_market_pulse [] 0 "aapl" envBanana).1 = some "banana"
    have hup : pyUpper "aapl" = "AAPL" := rfl
    simp only [get_market_pulse, hup, cacheGet, List.find?, hpipe]
    rfl
  · refine ⟨by decide, by decide, by decide⟩

/-- C7 (amended): the pulse field is "neutral" in every fallback case, and
otherwise it is the lowercased form of exactly the string the parsed object
supplied under "pulse" — with no restriction to the three expected words
(the counterexample exhibits "banana"). -/
theorem c7_pulse_normalized (tk : String) (env : Env) (r : MarketPulseResult)
    (h : pipeline tk env = .ok r) :
    r.pulse = "neutral" ∨
    ∃ t sp d p, env.gen = .genText t ∧ spanOf (pyStrip t) = some sp ∧
      env.parseJson sp = .ok d ∧ dictGet d "pulse" (.jstr "neutral") = .jstr p ∧
      r.pulse = pyLower p := by
  have hp : r.pulse = (interpretLLM env.parseJson env.gen).1 := by
    simp only [pipeline] at h
    split at h
    · exact absurd h (by simp)
    · split at h
      · exact absurd h (by simp)
      · obtain rfl := (Except.ok.inj h).symm
        rfl
  rw [hp]
  cases hg : env.gen with
  | genErr m => exact Or.inl rfl
  | genText t =>
    cases hsp : spanOf (pyStrip t) with
    | none => exact Or.inl (by simp [interpretLLM, hsp])
    | some sp =>
      cases hpj : env.parseJson sp with
      | error m => exact Or.inl (by simp [interpretLLM, hsp, hpj])
      | ok d =>
        cases hd : dictGet d "pulse" (.jstr "neutral") with
        | jstr p =>
          refine Or.inr ⟨t, sp, d, p, rfl, hsp, hpj, hd, ?_⟩
          simp [interpretLLM, hsp, hpj, hd]
        | jother em => exact Or.inl (by simp [interpretLLM, hsp, hpj, hd])

/-- Witness for the amended C7 at a concrete pipeline run. -/
theorem c7_pulse_normalized_witness :
    resNetErr.pulse = "neutral" ∨
    ∃ t sp d p,
      (withNews envBase (.netErr "x")).gen = .genText t ∧
      spanOf (pyStrip t) = some sp ∧
      (withNews envBase (.netErr "x")).parseJson sp = .ok d ∧
      dictGet d "pulse" (.jstr "neutral") = .jstr p ∧
      resNetErr.pulse = pyLower p :=
  c7_pulse_normalized "A" (withNews envBase (.netErr "x")) resNetErr
    pipeline_envBase_netErr

lemma cache_hit_of_fresh (c : CacheState) (t0 t1 : ℚ) (k : String)
    (v : MarketPulseResult) (h : t1 < t0 + 600) :
    cacheGet (cachePut c t0 k v) t1 k = some v := by
  simp [cacheGet, cachePut, List.find?, h]

lemma cache_miss_of_expired (c : CacheState) (t0 t1 : ℚ) (k : String)
    (v : MarketPulseResult) (h : t0 + 600 ≤ t1) :
    cacheGet (cachePut c t0 k v) t1 k = none := by
  simp [cacheGet, cachePut, List.find?, not_lt.mpr h]

/-- C8: after `cache[ticker] = result` at time `t0`, a request for the
same ticker at any `t1 < t0 + 600` is answered from the cache with exactly
the stored result, issuing no upstream call and leaving the cache
unchanged; once the TTL has elapsed the lookup is a miss and the pipeline
runs again. -/
theorem c8_cache_roundtrip (c : CacheState) (t0 t1 : ℚ) (k : String)
    (v : MarketPulseResult) (env : Env) :
    (t1 < t0 + 600 →
      get_market_pulse (cachePut c t0 (pyUpper k) v) t1 k env =
        (.ok v, cachePut c t0 (pyUpper k) v, false)) ∧
    (t0 + 600 ≤ t1 →
      (get_market_pulse (cachePut c t0 (pyUpper k) v) t1 k env).2.2 = true) := by
  constructor
  · intro h
    simp [get_market_pulse, cache_hit_of_fresh c t0 t1 (pyUpper k) v h]
  · intro h
    simp only [get_market_pulse, cache_miss_of_expired c t0 t1 (pyUpper k) v h]
    cases pipeline (pyUpper k) env <;> rfl

/-- Witness for C8, at concrete times 1 (fresh) and 600 (expired). -/
theorem c8_cache_roundtrip_witness :
    get_market_pulse (cachePut [] 0 (pyUpper "aapl") resNetErr) 1 "aapl" envBase =
      (.ok resNetErr, cachePut [] 0 (pyUpper "aapl") resNetErr, false) ∧
    (get_market_pulse (cachePut [] 0 (pyUpper "aapl") resNetErr) 600 "aapl" envBase).2.2 =
      true :=
  ⟨(c8_cache_roundtrip [] 0 1 "aapl" resNetErr envBase).1 (by norm_num),
   (c8_cache_roundtrip [] 0 600 "aapl" resNetErr envBase).2 (by norm_num)⟩

/-- C10: every successfully assembled (non-cached) result carries
`as_of = env.today`, the server's current date at assembly time — whatever
the fetched price series contains — while a cache hit within the TTL
returns the stored result unchanged, so its `as_of` may be a past date. -/
theorem c10_as_of_is_server_date (tk : String) (env : Env) (r : MarketPulseResult)
    (h : pipeline tk env = .ok r) (c : CacheState) (t0 t1 : ℚ) (k : String)
    (v : MarketPulseResult) (hfresh : t1 < t0 + 600) :
    r.as_of = env.today ∧
    (get_market_pulse (cachePut c t0 (pyUpper k) v) t1 k env).1 = .ok v := by
  constructor
  · simp only [pipeline] at h
    split at h
    · exact absurd h (by simp)
    · split at h
      · exact absurd h (by simp)
      · obtain rfl := (Except.ok.inj h).symm
        rfl
  · simp [get_market_pulse, cache_hit_of_fresh c t0 t1 (pyUpper k) v hfresh]

/-- A stale cached result from a past date. -/
def resOld : MarketPulseResult :=
  ⟨"AAPL", "2020-02-02", ⟨[], 0, 0⟩, [], "neutral", .jstr "old"⟩

/-- Witness for C10: a fresh pipeline run stamps today's date, and a cache
hit returns a stored result whose `as_of` differs from today. -/
theorem c10_as_of_is_server_date_witness :
    (resNetErr.as_of = (withNews envBase (.netErr "x")).today ∧
      (get_market_pulse (cachePut [] 0 (pyUpper "AAPL") resOld) 1 "AAPL"
        (withNews envBase (.netErr "x"))).1 = .ok resOld) ∧
    resOld.as_of ≠ (withNews envBase (.netErr "x")).today :=
  ⟨c10_as_of_is_server_date "A" (withNews envBase (.netErr "x")) resNetErr
     pipeline_envBase_netErr [] 0 1 "AAPL" resOld (by norm_num),
   by decide⟩
